import Mathlib

/-!
Verification development for the plugins-server repository.

The development shallowly embeds the Excel-generator routines of
`src/unnamed/part_000` (the `excelGeneratorRouter` module) and the
`src/src/routes/webPageReader/webPageReaderRouter.ts` handler.

Conventions of the embedding:
* JavaScript dynamic values carried by request cells are modelled by `JSVal`
  (null, string, finite number, boolean).  Numbers are exact decimals
  `mant / 10 ^ scale` (`DecNum`); the model covers the finite decimal
  literals that the router's inputs exercise (no `Infinity`/`NaN` literals,
  no exponent notation, no hex).
* JavaScript builtins used by the source (`Number`, `parseInt`, `Math.round`,
  `String`, `Boolean`, `new Date`) are modelled by `jsNumber`, `jsParseInt`,
  `mathRound`, `jsValToString`, `jsTruthy`, `jsDateParse` on that fragment.
* The ExcelJS worksheet is modelled by `Worksheet`: a cell store with merge
  ranges, per-column widths and the single `autoFilter` property.  Font,
  border and alignment assignments of the source are pure style pass-through
  from the config and are not tracked (no verified property mentions them).
* Failure paths that ExcelJS would reject at runtime (a NaN or non-positive
  start coordinate reaching `worksheet.getCell`) are modelled with `Except`.
-/

/-- Exact decimal number `mant / 10 ^ scale`, modelling the JavaScript
numbers produced from finite decimal literals.  Parsing is canonical (the
scale is the number of fractional digits written), so syntactic equality is
used only against values produced the same way. -/
structure DecNum where
  mant : Int
  scale : Nat
deriving DecidableEq, Repr

/-- Dynamic JavaScript value as it appears in a request cell: null (also
covering `undefined`), a string, a finite number, or a boolean. -/
inductive JSVal where
  | vNull
  | vStr (s : String)
  | vNum (d : DecNum)
  | vBool (b : Bool)
deriving DecidableEq, Repr

/-- Whitespace characters skipped by `Number` and `parseInt`. -/
def isWS (c : Char) : Bool :=
  c == ' ' || c == '\t' || c == '\n' || c == '\r'

/-- Value of a list of decimal digit characters, most significant first. -/
def digitsVal (ds : List Char) : Nat :=
  ds.foldl (fun a c => a * 10 + (c.toNat - 48)) 0

/-- Longest leading run of decimal digits, as a natural number; `none` when
there is no leading digit (the NaN case of `parseInt`). -/
def parseIntDigits (cs : List Char) : Option Nat :=
  let ds := cs.takeWhile Char.isDigit
  if ds.isEmpty then none else some (digitsVal ds)

/-- Model of JavaScript `parseInt(s)` (radix 10): skip leading whitespace,
optional sign, then the longest digit prefix; `none` models `NaN`. -/
def jsParseInt (s : String) : Option Int :=
  let cs := s.data.dropWhile isWS
  match cs with
  | '-' :: rest => (parseIntDigits rest).map (fun n => -(n : Int))
  | '+' :: rest => (parseIntDigits rest).map (fun n => (n : Int))
  | _ => (parseIntDigits cs).map (fun n => (n : Int))

/-- Unsigned decimal literal, with an optional fractional part, as an exact
decimal; `none` models `NaN`. -/
def parseUnsignedDec (cs : List Char) : Option DecNum :=
  let intDs := cs.takeWhile Char.isDigit
  let rest := cs.drop intDs.length
  match rest with
  | [] => if intDs.isEmpty then none else some ⟨(digitsVal intDs : Int), 0⟩
  | '.' :: frac =>
    let fracDs := frac.takeWhile Char.isDigit
    if frac.drop fracDs.length ≠ [] then none
    else if intDs.isEmpty ∧ fracDs.isEmpty then none
    else some ⟨(digitsVal intDs * 10 ^ fracDs.length + digitsVal fracDs : Nat), fracDs.length⟩
  | _ => none

/-- Negation of an exact decimal. -/
def DecNum.neg (d : DecNum) : DecNum :=
  ⟨-d.mant, d.scale⟩

/-- Model of JavaScript `Number(s)` on a string: trims whitespace, the empty
string is `0`, otherwise an optionally signed decimal literal; `none` models
`NaN`. -/
def jsNumberOfString (s : String) : Option DecNum :=
  let cs := ((s.data.dropWhile isWS).reverse.dropWhile isWS).reverse
  match cs with
  | [] => some ⟨0, 0⟩
  | '-' :: rest => (parseUnsignedDec rest).map DecNum.neg
  | '+' :: rest => parseUnsignedDec rest
  | _ => parseUnsignedDec cs

/-- Model of JavaScript `Number(v)` on a dynamic value. -/
def jsNumber : JSVal → Option DecNum
  | .vNull => some ⟨0, 0⟩
  | .vBool b => some (if b then ⟨1, 0⟩ else ⟨0, 0⟩)
  | .vNum d => some d
  | .vStr s => jsNumberOfString s

/-- Model of JavaScript `Math.round`: half-up, that is `⌊x + 1/2⌋`, computed
as the floor division `(2 mant + 10 ^ scale) fdiv (2 * 10 ^ scale)`. -/
def mathRound (d : DecNum) : Int :=
  Int.fdiv (2 * d.mant + 10 ^ d.scale) (2 * 10 ^ d.scale)

/-- Model of JavaScript `Boolean(v)` truthiness.  A number is falsy exactly
when its value is zero, i.e. when its mantissa is zero. -/
def jsTruthy : JSVal → Bool
  | .vNull => false
  | .vBool b => b
  | .vNum d => decide (d.mant ≠ 0)
  | .vStr s => decide (s ≠ "")

/-- Decimal digits of `n`, left padded with zeros to `len` digits. -/
def natPadded (len n : Nat) : String :=
  (toString (10 ^ len + n)).drop 1

/-- Drop trailing zero digits from the fractional part, so that printing
matches the shortest form JavaScript prints. -/
def stripZeros : Int → Nat → Int × Nat
  | m, 0 => (m, 0)
  | m, s + 1 => if m % 10 = 0 then stripZeros (m / 10) s else (m, s + 1)

/-- Model of JavaScript number-to-string conversion on exact decimals:
integers print without a point, other values print their shortest
fractional expansion. -/
def decNumToJsString (d : DecNum) : String :=
  let ms := stripZeros d.mant d.scale
  if ms.2 = 0 then toString ms.1
  else
    let sgn := if ms.1 < 0 then "-" else ""
    let a := ms.1.natAbs
    let p := 10 ^ ms.2
    sgn ++ toString (a / p) ++ "." ++ natPadded ms.2 (a % p)

/-- Model of JavaScript `String(v)` on a dynamic value. -/
def jsValToString : JSVal → String
  | .vNull => "null"
  | .vStr s => s
  | .vBool b => if b then "true" else "false"
  | .vNum d => decNumToJsString d

/-- Model of `new Date(v)` validity: `some` returns a canonical token for a
valid date, `none` models an Invalid Date (`isNaN(parsed.getTime())`).  The
model accepts the ISO `YYYY-MM-DD` calendar-date fragment on strings and any
finite number (epoch milliseconds); no verified claim depends on dates. -/
def jsDateParse : JSVal → Option String
  | .vNum d => some (decNumToJsString d)
  | .vStr s =>
    match s.data with
    | [y1, y2, y3, y4, '-', m1, m2, '-', d1, d2] =>
      if ([y1, y2, y3, y4, m1, m2, d1, d2].all Char.isDigit) then
        let mm := digitsVal [m1, m2]
        let dd := digitsVal [d1, d2]
        if 1 ≤ mm ∧ mm ≤ 12 ∧ 1 ≤ dd ∧ dd ≤ 31 then some s else none
      else none
    | _ => none
  | _ => none

/-- Source `columnLetterToNumber` (part_000 lines 157-163): Horner fold
`column = column * 26 + (charCodeAt(i) - charCodeAt('A') + 1)` over the whole
string.  The result is an integer because non-letter characters make the
JavaScript expression negative. -/
def columnLetterToNumber (letter : String) : Int :=
  letter.data.foldl (fun column c => column * 26 + (c.toNat : Int) - 65 + 1) 0

/-- Source lines 208-209: `startCol = columnLetterToNumber(startCell[0])`
(only the first character) and `startRow = parseInt(startCell.slice(1))`
(`none` models `NaN`). -/
def parseStartCell (startCell : String) : Int × Option Int :=
  (columnLetterToNumber (startCell.take 1), jsParseInt (startCell.drop 1))

/-- Conventional 1-based spreadsheet column index of a letter sequence, from
the spec's words: base-26 positional value where each letter contributes
`letter - 'A' + 1`. -/
def specColumnIndex : List Char → Nat
  | [] => 0
  | c :: cs => (c.toNat - 64) * 26 ^ cs.length + specColumnIndex cs

/-- Value stored in a worksheet cell.  `null` is the value of a never
written cell (ExcelJS reports `null`); `formula` models the
`{ formula: ... }` object; `date` carries the canonical token produced by
`jsDateParse` for a valid `Date`. -/
inductive CellVal where
  | null
  | str (s : String)
  | num (d : DecNum)
  | boolean (b : Bool)
  | formula (f : String)
  | date (iso : String)
deriving DecidableEq, Repr

/-- String rendering of a stored cell value, modelling `String(cell.value)`:
a formula cell holds an object, hence the object default rendering. -/
def cellValString : CellVal → String
  | .null => "null"
  | .str s => s
  | .num d => decNumToJsString d
  | .boolean b => if b then "true" else "false"
  | .formula _ => "[object Object]"
  | .date iso => iso

/-- A worksheet cell record: stored value plus applied number format. -/
structure WCell where
  value : CellVal
  numFmt : Option String
deriving DecidableEq, Repr

/-- A rectangular merged region, rows `top..bottom`, columns `left..right`. -/
structure MergeRange where
  top : Nat
  left : Nat
  bottom : Nat
  right : Nat
deriving DecidableEq, Repr

/-- The `worksheet.autoFilter` range object of ExcelJS. -/
structure AFRange where
  fromRow : Nat
  fromCol : Nat
  toRow : Nat
  toCol : Nat
deriving DecidableEq, Repr

/-- ExcelJS worksheet model: written cells keyed by (row, column), merge
ranges, per-column widths, and the single `autoFilter` property. -/
structure Worksheet where
  cells : List ((Nat × Nat) × WCell)
  merges : List MergeRange
  widths : List (Nat × Nat)
  autoFilter : Option AFRange
deriving DecidableEq, Repr

/-- Fresh worksheet, as created by `workbook.addWorksheet`. -/
def emptyWorksheet : Worksheet :=
  ⟨[], [], [], none⟩

/-- Address resolution through merges: a cell inside a merged region reads
and writes through its master (top-left) cell, as ExcelJS merged cells do. -/
def resolveCell (merges : List MergeRange) (r c : Nat) : Nat × Nat :=
  match merges.find? (fun m =>
      decide (m.top ≤ r ∧ r ≤ m.bottom ∧ m.left ≤ c ∧ c ≤ m.right)) with
  | some m => (m.top, m.left)
  | none => (r, c)

/-- Raw association lookup in the cell store. -/
def lookupCell (cells : List ((Nat × Nat) × WCell)) (rc : Nat × Nat) : Option WCell :=
  (cells.find? (fun e => decide (e.1 = rc))).map (fun e => e.2)

/-- `worksheet.getCell(r, c)` record, `none` when the cell was never
written. -/
def getCellRec (ws : Worksheet) (r c : Nat) : Option WCell :=
  lookupCell ws.cells (resolveCell ws.merges r c)

/-- `worksheet.getCell(r, c).value`; ExcelJS reports `null` for a cell that
was never written. -/
def getCellValue (ws : Worksheet) (r c : Nat) : CellVal :=
  ((getCellRec ws r c).map (fun w => w.value)).getD .null

/-- `worksheet.getCell(r, c).value = v`, writing through merges and keeping
any number format already applied to the cell. -/
def setCellValue (ws : Worksheet) (r c : Nat) (v : CellVal) : Worksheet :=
  let rc := resolveCell ws.merges r c
  let old := (lookupCell ws.cells rc).getD ⟨.null, none⟩
  { ws with cells := (rc, ⟨v, old.numFmt⟩) :: ws.cells.filter (fun e => decide (e.1 ≠ rc)) }

/-- `worksheet.getCell(r, c).numFmt = f`, writing through merges and keeping
the stored value. -/
def setNumFmt (ws : Worksheet) (r c : Nat) (f : Option String) : Worksheet :=
  let rc := resolveCell ws.merges r c
  let old := (lookupCell ws.cells rc).getD ⟨.null, none⟩
  { ws with cells := (rc, ⟨old.value, f⟩) :: ws.cells.filter (fun e => decide (e.1 ≠ rc)) }

/-- `worksheet.mergeCells(top, left, bottom, right)`. -/
def mergeCellsW (ws : Worksheet) (top left bottom right : Nat) : Worksheet :=
  { ws with merges := ws.merges ++ [⟨top, left, bottom, right⟩] }

/-- `worksheet.getColumn(c).width = w`. -/
def setColWidth (ws : Worksheet) (c w : Nat) : Worksheet :=
  { ws with widths := (c, w) :: ws.widths.filter (fun e => decide (e.1 ≠ c)) }

/-- Width recorded for a column, if any. -/
def getColWidth (ws : Worksheet) (c : Nat) : Option Nat :=
  (ws.widths.find? (fun e => decide (e.1 = c))).map (fun e => e.2)

/-- Input cell as sent in the request body: the cell kind (line 247 applies
the default `'static_value'` when the field is absent) and a dynamic
value. -/
structure InCell where
  type : Option String
  value : JSVal
deriving DecidableEq, Repr

/-- Input column descriptor: display name, semantic type, optional explicit
format (an absent field is `none`). -/
structure InColumn where
  name : String
  type : String
  format : Option String
deriving DecidableEq, Repr

/-- Input table: optional title (absent or empty is falsy at line 212),
start cell reference, grid of rows, columns, and the skip-header flag. -/
structure InTable where
  title : Option String
  startCell : String
  rows : List (List InCell)
  columns : List InColumn
  skipHeader : Bool
deriving DecidableEq, Repr

/-- Input sheet: name plus ordered tables. -/
structure InSheet where
  sheetName : String
  tables : List InTable
deriving DecidableEq, Repr

/-- The merged Excel configuration passed to `execGenExcelFuncs` (interface
at lines 82-91). -/
structure ExcelConfig where
  fontFamily : String
  tableTitleFontSize : Nat
  headerFontSize : Nat
  fontSize : Nat
  autoFitColumnWidth : Bool
  autoFilter : Bool
  borderStyle : Option String
  wrapText : Bool
deriving DecidableEq, Repr

/-- JavaScript `x || y` on an optional string (`undefined` and `''` are
falsy). -/
def jsOrOpt (f : Option String) (d : Option String) : Option String :=
  match f with
  | some s => if s = "" then d else some s
  | none => d

/-- JavaScript `x || y` when the fallback is a string literal. -/
def jsOrStr (f : Option String) (d : String) : String :=
  match f with
  | some s => if s = "" then d else s
  | none => d

/-- Truthiness of the optional `title` string (line 212 `if (title)`). -/
def jsTruthyStr : Option String → Bool
  | some s => decide (s ≠ "")
  | none => false

/-- Line 251: `cellValue = value != null ? value : ''`. -/
def nullToEmpty (v : JSVal) : JSVal :=
  if v = .vNull then .vStr "" else v

/-- Per-column resolved format (lines 234-243): explicit format if truthy,
else the type default — `percent → "0.00%"`, `currency → "$#,##0"`, `number`
and `date` have no default here, other types none. -/
def columnFormatOf (col : InColumn) : Option String :=
  match col.type with
  | "number" => jsOrOpt col.format none
  | "percent" => jsOrOpt col.format (some "0.00%")
  | "currency" => jsOrOpt col.format (some "$#,##0")
  | "date" => jsOrOpt col.format none
  | _ => none

/-- Conversion of a dynamic value kept as-is in a cell (the unparseable
fall-back branches store `cellValue` unchanged). -/
def storeJS : JSVal → CellVal
  | .vNull => .null
  | .vStr s => .str s
  | .vNum d => .num d
  | .vBool b => .boolean b

/-- Body of the data-cell loop (lines 246-283): destructure the cell with
the `'static_value'` default, look up the column type and format (both
`undefined` past the column list), replace a null value by `''`, then either
store a formula object (formatting it only for percent / currency / number /
date columns) or apply the per-type coercion policy. -/
def writeDataCell (ws : Worksheet) (rowIndex startCol colIdx : Nat)
    (columnTypes : List String) (columnFormats : List (Option String))
    (cellData : InCell) : Worksheet :=
  let ctype := cellData.type.getD "static_value"
  let valueType : Option String := columnTypes.get? colIdx
  let format : Option String := (columnFormats.get? colIdx).join
  let cellValue : JSVal := nullToEmpty cellData.value
  let r := rowIndex
  let c := startCol + colIdx
  if ctype = "formula" then
    let ws := setCellValue ws r c (.formula (jsValToString cellValue))
    if valueType = some "percent" ∨ valueType = some "currency" ∨
        valueType = some "number" ∨ valueType = some "date" then
      setNumFmt ws r c format
    else ws
  else
    match valueType with
    | some "number" =>
      let ws := setCellValue ws r c (match jsNumber cellValue with
        | some q => .num ⟨mathRound q, 0⟩
        | none => storeJS cellValue)
      setNumFmt ws r c (some (jsOrStr format "0"))
    | some "boolean" =>
      setCellValue ws r c (.boolean (jsTruthy cellValue))
    | some "date" =>
      let ws := setCellValue ws r c (match jsDateParse cellValue with
        | some iso => .date iso
        | none => storeJS cellValue)
      setNumFmt ws r c (some (jsOrStr format "yyyy-mm-dd"))
    | some "percent" =>
      let ws := setCellValue ws r c (match jsNumber cellValue with
        | some q => .num q
        | none => storeJS cellValue)
      setNumFmt ws r c format
    | some "currency" =>
      let ws := setCellValue ws r c (match jsNumber cellValue with
        | some q => .num q
        | none => storeJS cellValue)
      setNumFmt ws r c format
    | _ => setCellValue ws r c (.str (jsValToString cellValue))

/-- One iteration of `rows.forEach` (lines 245-286): write every provided
cell of the row at the current row index, then advance the row index. -/
def writeRow (startCol : Nat) (columnTypes : List String)
    (columnFormats : List (Option String)) (p : Worksheet × Nat)
    (rowData : List InCell) : Worksheet × Nat :=
  (rowData.enum.foldl
      (fun ws q => writeDataCell ws p.2 startCol q.1 columnTypes columnFormats q.2)
      p.1,
   p.2 + 1)

/-- Source `autoFitColumns` (lines 165-186).  For each column it maximises
over `String(row[colIdx]).length` for every row that provides an entry at
that index — `row[colIdx]` is the raw request cell object, whose JavaScript
string rendering is always `"[object Object]"` — then over the value stored
at `(startRow, startCol + colIdx)` when non-null, and records
`maxLength + 2` as the column width. -/
def autoFitColumns (worksheet : Worksheet) (startRow : Nat)
    (rows : List (List InCell)) (numColumns : Nat) (startCol : Nat) : Worksheet :=
  (List.range numColumns).foldl (fun ws colIdx =>
    let dataMax := rows.foldl (fun maxLength row =>
      match row.get? colIdx with
      | some _cellObject => max maxLength (String.length "[object Object]")
      | none => maxLength) 0
    let headerCell := getCellValue ws startRow (startCol + colIdx)
    let maxLength :=
      if headerCell = .null then dataMax
      else max dataMax (cellValString headerCell).length
    setColWidth ws (startCol + colIdx) (maxLength + 2)) worksheet

/-- Layout of one table (lines 210-298) once the start coordinates are
known: title placement with merge, header row, data rows, autofilter
assignment, autofit pass. -/
def placeTableAt (cfg : ExcelConfig) (ws0 : Worksheet) (t : InTable)
    (startRow startCol : Nat) : Worksheet :=
  let p1 :=
    if jsTruthyStr t.title then
      let ws := setCellValue ws0 startRow startCol (.str (t.title.getD ""))
      let ws := mergeCellsW ws startRow startCol startRow (startCol + t.columns.length - 1)
      (ws, startRow + 1)
    else (ws0, startRow)
  let p2 :=
    if !t.skipHeader then
      let ws := t.columns.enum.foldl
        (fun ws q => setCellValue ws p1.2 (startCol + q.1) (.str q.2.name)) p1.1
      (ws, p1.2 + 1)
    else p1
  let columnTypes := t.columns.map (fun col => col.type)
  let columnFormats := t.columns.map columnFormatOf
  let p3 := t.rows.foldl (writeRow startCol columnTypes columnFormats) p2
  let ws := p3.1
  let rowIndex := p3.2
  let afRange := AFRange.mk (startRow + 1) startCol (rowIndex - 1)
    (startCol + t.columns.length - 1)
  let ws :=
    if cfg.autoFilter then { ws with autoFilter := some afRange } else ws
  if cfg.autoFitColumnWidth then
    autoFitColumns ws startRow t.rows t.columns.length startCol
  else ws

/-- One iteration of `tables.forEach` (lines 207-299): parse the start cell
as the source does (lines 208-209).  A `NaN` or non-positive coordinate is
modelled as an error, standing for the addresses ExcelJS rejects. -/
def placeTable (cfg : ExcelConfig) (ws : Worksheet) (t : InTable) :
    Except String Worksheet :=
  let p := parseStartCell t.startCell
  match p.2 with
  | none => .error "start row is NaN"
  | some r =>
    if r ≤ 0 ∨ p.1 ≤ 0 then .error "cell address out of range"
    else .ok (placeTableAt cfg ws t r.toNat p.1.toNat)

/-- All tables of one sheet, in input order. -/
def placeTables (cfg : ExcelConfig) (ws : Worksheet) :
    List InTable → Except String Worksheet
  | [] => .ok ws
  | t :: ts =>
    match placeTable cfg ws t with
    | .error e => .error e
    | .ok ws2 => placeTables cfg ws2 ts

/-- Sheets loop of `execGenExcelFuncs` (lines 205-300): one fresh worksheet
per sheet name, every table placed in order. -/
def buildWorkbook (cfg : ExcelConfig) :
    List InSheet → Except String (List (String × Worksheet))
  | [] => .ok []
  | s :: rest =>
    match placeTables cfg emptyWorksheet s.tables with
    | .error e => .error e
    | .ok ws =>
      match buildWorkbook cfg rest with
      | .error e => .error e
      | .ok others => .ok ((s.sheetName, ws) :: others)

/-- Source `execGenExcelFuncs` (lines 188-306) restricted to its layout
semantics: the produced workbook, sheet by sheet.  File naming and the
asynchronous serialization are modelled separately by
`generateHandlerTrace`. -/
def execGenExcelFuncs (sheetsData : List InSheet) (excelConfigs : ExcelConfig) :
    Except String (List (String × Worksheet)) :=
  buildWorkbook excelConfigs sheetsData

deriving instance DecidableEq for Except

/-- Value of an Express query parameter: a single string, or an array when
the parameter is repeated (`typeof` is not `'string'` for the array case). -/
inductive QueryVal where
  | qStr (s : String)
  | qArr (l : List String)
deriving DecidableEq, Repr

/-- The `ServiceResponse` envelope fields relevant to the handlers: status
flag, human message, HTTP status code. -/
structure ServiceResp where
  success : Bool
  message : String
  statusCode : Nat
deriving DecidableEq, Repr

/-- Outcome of one invocation of an Express handler: `sent` is the response
written to `res` through `handleServiceResponse` (`none` when the handler
never writes to `res`, leaving the client without any response), and
`returned` is the handler's JavaScript return value, which Express
ignores. -/
structure HandlerResult where
  sent : Option ServiceResp
  returned : ServiceResp
deriving DecidableEq, Repr

/-- Source `webPageReaderRouter` GET handler (webPageReaderRouter.ts lines
75-102).  `fetchResult` stands for the outcome of the external
`fetchAndCleanContent(url)` call (title and content on success).  When
`typeof url !== 'string'` the source constructs a 400 `ServiceResponse` and
returns it directly, without passing it to `handleServiceResponse`, so
nothing is written to `res`. -/
def getContentHandler (url : Option QueryVal)
    (fetchResult : Except String (String × String)) : HandlerResult :=
  match url with
  | some (.qStr _u) =>
    match fetchResult with
    | .ok _tc =>
      let sr : ServiceResp := ⟨true, "Content fetched successfully", 200⟩
      ⟨some sr, sr⟩
    | .error e =>
      let sr : ServiceResp := ⟨false, "Error fetching content " ++ e, 500⟩
      ⟨some sr, sr⟩
  | _ => ⟨none, ⟨false, "URL must be a string", 400⟩⟩

/-- Events of one successful generate request, in execution order. -/
inductive GenEvent where
  | writeFileStarted
  | responseSent
  | writeFileCompleted
deriving DecidableEq, Repr

/-- Event order of the generate path (part_000 lines 302-305 and 313-344).
`execGenExcelFuncs` calls `workbook.xlsx.writeFile(filePath).catch(...)`
without awaiting it and returns the file name synchronously; the router then
builds the success `ServiceResponse` and sends it.  Under JavaScript
run-to-completion scheduling the un-awaited write promise can only settle
after the current synchronous execution — including sending the response —
has finished, so the completion event comes last. -/
def generateHandlerTrace : List GenEvent :=
  [.writeFileStarted, .responseSent, .writeFileCompleted]

/-- One hour in milliseconds, the retention threshold of the cron sweep
(line 140). -/
def oneHour : Int := 60 * 60 * 1000

/-- Per-file body of the sweep (lines 143-151): a directory entry is a name
together with its stat result (`none` models a stat error, which is skipped);
the file is unlinked exactly when `now - stats.mtime.getTime() > oneHour`.
Returns the deleted path, if any. -/
def sweepFile (now : Int) (entry : String × Option Int) : Option String :=
  match entry.2 with
  | none => none
  | some mtime => if now - mtime > oneHour then some entry.1 else none

/-- One sweep cycle of the hourly cron job (lines 138-153): every entry of
the output directory is examined independently; the result lists the deleted
paths. -/
def sweepCycle (now : Int) : List (String × Option Int) → List String
  | [] => []
  | e :: es =>
    match sweepFile now e with
    | some p => p :: sweepCycle now es
    | none => sweepCycle now es

/-- The autofilter range the source registers for a table placed at
`(startRow, startCol)` (lines 288-294): from `startRow + 1` unconditionally,
down to the last written row `rowIndex - 1`, across
`startCol .. startCol + columns.length - 1`.  The last written row is
`startRow` plus one per present title, one per emitted header row elision,
plus the number of data rows, minus one. -/
def tableAutoFilterRange (t : InTable) (startRow startCol : Nat) : AFRange :=
  ⟨startRow + 1, startCol,
   startRow + (if jsTruthyStr t.title then 1 else 0) +
     (if t.skipHeader then 0 else 1) + t.rows.length - 1,
   startCol + t.columns.length - 1⟩

/-- Worksheet of a successful `placeTable`/`placeTables` result. -/
def okWorksheet (r : Except String Worksheet) : Worksheet :=
  match r with
  | .ok w => w
  | .error _ => emptyWorksheet

/-- First worksheet of a successful `execGenExcelFuncs` result. -/
def okFirstWorksheet (r : Except String (List (String × Worksheet))) : Worksheet :=
  match r with
  | .ok ((_, w) :: _) => w
  | _ => emptyWorksheet

/-- Config for the autofit failing input: autofit on, autofilter off. -/
def c2Cfg : ExcelConfig :=
  ⟨"Calibri", 13, 11, 11, true, false, none, false⟩

/-- Autofit failing input: no title, a one-letter header `X`, one data cell
with the three-letter value `abc`. -/
def c2Table : InTable :=
  ⟨none, "A1", [[⟨some "static_value", .vStr "abc"⟩]], [⟨"X", "text", none⟩], false⟩

/-- Sheet wrapping the autofit failing input. -/
def c2Sheet : InSheet :=
  ⟨"S", [c2Table]⟩

/-- Worksheet generated from the autofit failing input. -/
def c2Ws : Worksheet :=
  okFirstWorksheet (execGenExcelFuncs [c2Sheet] c2Cfg)

/-- Config with the autofilter enabled. -/
def c5Cfg : ExcelConfig :=
  ⟨"Calibri", 13, 11, 11, false, true, none, false⟩

/-- A table with zero columns (and no title, no header, no rows). -/
def c5ZeroColTable : InTable :=
  ⟨none, "A1", [], [], true⟩

/-- A table with a title, a header and one data row, anchored at `A1`: the
title lands on row 1, the header on row 2, the data on row 3. -/
def c5TitledTable : InTable :=
  ⟨some "T", "A1", [[⟨some "static_value", .vStr "v"⟩]], [⟨"H", "text", none⟩], false⟩

/-- Result of placing the zero-column table with the autofilter enabled. -/
def c5ZeroWs : Worksheet :=
  okWorksheet (placeTable c5Cfg emptyWorksheet c5ZeroColTable)

/-- Result of placing the titled table with the autofilter enabled. -/
def c5TitledWs : Worksheet :=
  okWorksheet (placeTable c5Cfg emptyWorksheet c5TitledTable)

/-- Config for the two-table sheet example, autofilter enabled. -/
def c10Cfg : ExcelConfig :=
  ⟨"Calibri", 13, 11, 11, false, true, none, false⟩

/-- First table of the two-table sheet: anchored at `A1`, header row 1, one
data row at row 2, so its registered range is rows 2-2, column 1. -/
def c10Table1 : InTable :=
  ⟨none, "A1", [[⟨some "static_value", .vStr "a"⟩]], [⟨"H1", "text", none⟩], false⟩

/-- Second table of the two-table sheet: anchored at `E5`, two columns and
two data rows, so its registered range is rows 6-7, columns 5-6. -/
def c10Table2 : InTable :=
  ⟨none, "E5",
   [[⟨some "static_value", .vStr "b"⟩, ⟨some "static_value", .vStr "c"⟩],
    [⟨some "static_value", .vStr "d"⟩, ⟨some "static_value", .vStr "e"⟩]],
   [⟨"H2", "text", none⟩, ⟨"H3", "text", none⟩], false⟩

/-- Worksheet after placing both tables of the two-table sheet. -/
def c10Ws : Worksheet :=
  okWorksheet (placeTables c10Cfg emptyWorksheet [c10Table1, c10Table2])

/-- Scratch config used by the inline regression examples below. -/
def scratchCfg : ExcelConfig :=
  ⟨"Calibri", 13, 11, 11, true, false, none, false⟩

/-- Scratch table from the spec's end-to-end example. -/
def scratchTable : InTable :=
  ⟨some "Sales", "A1", [[⟨some "static_value", .vStr "3"⟩]],
   [⟨"Qty", "number", none⟩], false⟩

example : columnLetterToNumber "A" = 1 := by decide
example : columnLetterToNumber "Z" = 26 := by decide
example : columnLetterToNumber "AA" = 27 := by decide
example : parseStartCell "B3" = (2, some 3) := by decide
example : parseStartCell "AA3" = (1, none) := by decide
example : jsNumberOfString "42.7" = some ⟨427, 1⟩ := by decide
example : mathRound ⟨427, 1⟩ = 43 := by decide
example : mathRound ⟨-25, 1⟩ = -2 := by decide
example : jsNumberOfString "abc" = none := by decide
example : jsNumberOfString "" = some ⟨0, 0⟩ := by decide
example : decNumToJsString ⟨427, 1⟩ = "42.7" := by decide
example : decNumToJsString ⟨4270, 2⟩ = "42.7" := by decide
example : decNumToJsString ⟨-5, 1⟩ = "-0.5" := by decide

example : getCellValue (placeTableAt scratchCfg emptyWorksheet scratchTable 1 1) 1 1
    = .str "Sales" := by decide
example : getCellValue (placeTableAt scratchCfg emptyWorksheet scratchTable 2 1) 2 1
    = .str "Sales" := by decide
example : getCellValue (placeTableAt scratchCfg emptyWorksheet scratchTable 1 1) 2 1
    = .str "Qty" := by decide
example : getCellRec (placeTableAt scratchCfg emptyWorksheet scratchTable 1 1) 3 1
    = some ⟨.num ⟨3, 0⟩, some "0"⟩ := by decide
example : getColWidth (placeTableAt scratchCfg emptyWorksheet scratchTable 1 1) 1
    = some 17 := by decide
example : placeTable scratchCfg emptyWorksheet scratchTable
    = .ok (placeTableAt scratchCfg emptyWorksheet scratchTable 1 1) := by decide

/-- Writing a value and then a number format at an address makes the cell
record at that address exactly that pair, whatever the prior state. -/
theorem getCellRec_setValue_setNumFmt (ws : Worksheet) (r c : Nat)
    (v : CellVal) (f : Option String) :
    getCellRec (setNumFmt (setCellValue ws r c v) r c f) r c = some ⟨v, f⟩ := by
  simp [getCellRec, setNumFmt, setCellValue, lookupCell, List.find?]

/-- Writing a value at an address makes the stored value at that address
that value, whatever the prior state. -/
theorem getCellRec_setValue (ws : Worksheet) (r c : Nat) (v : CellVal) :
    (getCellRec (setCellValue ws r c v) r c).map WCell.value = some v := by
  simp [getCellRec, setCellValue, lookupCell, List.find?]

/-- The row cursor advances by exactly one per data row: after folding
`writeRow` over the rows the cursor is the initial cursor plus the row
count. -/
theorem foldl_writeRow_snd (rows : List (List InCell)) (sc : Nat)
    (ty : List String) (fm : List (Option String)) (p : Worksheet × Nat) :
    (rows.foldl (writeRow sc ty fm) p).2 = p.2 + rows.length := by
  induction rows generalizing p with
  | nil => simp
  | cons row rest ih =>
    simp only [List.foldl_cons, ih, writeRow, List.length_cons]
    omega

/-- Folding a step that preserves the autofilter preserves the
autofilter. -/
theorem foldl_autoFilter_of_step (step : Worksheet → Nat → Worksheet)
    (hstep : ∀ ws i, (step ws i).autoFilter = ws.autoFilter) :
    ∀ (l : List Nat) (ws : Worksheet),
      (l.foldl step ws).autoFilter = ws.autoFilter := by
  intro l
  induction l with
  | nil => intro ws; rfl
  | cons i l ih =>
    intro ws
    rw [List.foldl_cons, ih, hstep]

/-- The autofit pass only records column widths: it never touches the
worksheet's autofilter. -/
theorem autoFitColumns_autoFilter (ws : Worksheet) (startRow : Nat)
    (rows : List (List InCell)) (numColumns startCol : Nat) :
    (autoFitColumns ws startRow rows numColumns startCol).autoFilter
      = ws.autoFilter := by
  dsimp only [autoFitColumns]
  apply foldl_autoFilter_of_step
  intro ws i
  rfl

/-- With the autofilter option enabled, placing a table always overwrites
the worksheet's autofilter with the range of lines 288-294, whatever the
incoming worksheet held. -/
theorem placeTableAt_autoFilter (cfg : ExcelConfig) (ws : Worksheet)
    (t : InTable) (sr sc : Nat) (h : cfg.autoFilter = true) :
    (placeTableAt cfg ws t sr sc).autoFilter
      = some (tableAutoFilterRange t sr sc) := by
  by_cases hf : cfg.autoFitColumnWidth <;>
    by_cases ht : jsTruthyStr t.title <;>
      by_cases hs : t.skipHeader <;>
        simp [placeTableAt, h, hf, ht, hs, autoFitColumns_autoFilter,
          foldl_writeRow_snd, tableAutoFilterRange]

/-- A table whose start cell parses to positive coordinates is placed
without error, at those coordinates. -/
theorem placeTable_ok (cfg : ExcelConfig) (ws : Worksheet) (t : InTable)
    (c r : Int) (hp : parseStartCell t.startCell = (c, some r))
    (hr : 0 < r) (hc : 0 < c) :
    placeTable cfg ws t = .ok (placeTableAt cfg ws t r.toNat c.toNat) := by
  unfold placeTable
  rw [hp]
  simp only
  rw [if_neg (by omega)]

/-- Horner evaluation of the column fold: starting from accumulator `a`,
folding uppercase letters computes `a * 26 ^ n` plus the positional base-26
value of the letters. -/
theorem colFold_eq (cs : List Char) :
    ∀ a : Nat, (∀ c ∈ cs, 'A'.toNat ≤ c.toNat ∧ c.toNat ≤ 'Z'.toNat) →
      cs.foldl (fun column c => column * 26 + (c.toNat : Int) - 65 + 1) (a : Int)
        = ((a * 26 ^ cs.length + specColumnIndex cs : Nat) : Int) := by
  induction cs with
  | nil => intro a _; simp [specColumnIndex]
  | cons c cs ih =>
    intro a hv
    have hc : 'A'.toNat ≤ c.toNat ∧ c.toNat ≤ 'Z'.toNat := hv c (by simp)
    have h65 : (65 : Nat) ≤ c.toNat := hc.1
    have hacc : (a : Int) * 26 + (c.toNat : Int) - 65 + 1
        = ((a * 26 + (c.toNat - 64) : Nat) : Int) := by
      push_cast [Nat.cast_sub (by omega : 64 ≤ c.toNat)]
      ring
    rw [List.foldl_cons, hacc, ih _ (fun d hd => hv d (by simp [hd]))]
    congr 1
    simp only [specColumnIndex, List.length_cons]
    ring

/-- Claim C1: the claim states that the Layout Engine parses `startCell`
with the full letter prefix determining the column and the full digit suffix
determining the row, identically for single- and multi-letter references.
The source instead feeds only `startCell[0]` to `columnLetterToNumber` and
`parseInt`s the whole remainder: `"B3"` parses as expected, but `"AA3"`
yields column 1 (from the letter `A` alone) and a NaN row
(`parseInt("A3")`), even though `columnLetterToNumber` itself maps `"AA"`
to 27.  This refutes the claim on the code and supports the C1 code-bug
verdict. -/
theorem c1_startcell_parse_truncates_letters :
    parseStartCell "B3" = (2, some 3) ∧
    columnLetterToNumber "AA" = 27 ∧
    parseStartCell "AA3" = (1, none) := by
  decide

/-- Claim C2: the claim states the autofit width is 2 plus the maximum
string length over the header value and the written data values.  On the
failing input (header `X`, single data value `abc`) that would be
`max 1 3 + 2 = 5`; the source instead stringifies the raw request cell
object — `String(row[colIdx])` is `"[object Object]"`, length 15 — and sets
the width to 17.  This supports the C2 code-bug verdict. -/
theorem c2_autofit_measures_object_string :
    execGenExcelFuncs [c2Sheet] c2Cfg = .ok [("S", c2Ws)] ∧
    getColWidth c2Ws 1 = some 17 ∧
    getColWidth c2Ws 1 ≠ some (max (String.length "X") (String.length "abc") + 2) := by
  decide

/-- Claim C3: the claim states the read-content handler sends an HTTP 400
response when the `url` query parameter is missing or not a string.  The
source builds the 400 `ServiceResponse` but returns it without calling
`handleServiceResponse`, so nothing at all is written to the client: `sent`
is `none` for a missing `url` and for an array-valued `url`, whatever the
fetch oracle would do.  This refutes the claim on the code and supports the
C3 code-bug verdict. -/
theorem c3_invalid_url_sends_no_response :
    ∀ fetchResult : Except String (String × String),
      (getContentHandler none fetchResult).sent = none ∧
      (getContentHandler (some (.qArr [])) fetchResult).sent = none ∧
      (getContentHandler none fetchResult).returned.statusCode = 400 := by
  intro fetchResult
  exact ⟨rfl, rfl, rfl⟩

/-- Claim C4: the claim states the generate handler awaits workbook
serialization before sending the success response.  In the source the
`writeFile` promise is not awaited, so under run-to-completion scheduling
the response is sent strictly before the write can complete: in the
handler's event trace `responseSent` precedes `writeFileCompleted`.  This
refutes the claim on the code and supports the C4 code-bug verdict. -/
theorem c4_response_sent_before_write_completes :
    generateHandlerTrace
      = [.writeFileStarted, .responseSent, .writeFileCompleted] ∧
    generateHandlerTrace.indexOf .responseSent
      < generateHandlerTrace.indexOf .writeFileCompleted := by
  decide

/-- Claim C5 counterexample: the claim requires an autofilter to be
registered only when the table has at least one column, spanning from the
row immediately after the header.  Placing the zero-column table still
registers a range, and placing the titled table with a header (title row 1,
header row 2, data row 3) registers a range starting at row 2 — the header
row itself — not at row 3 as the claim demands. -/
theorem c5_claim_counterexample :
    c5ZeroColTable.columns.length = 0 ∧
    c5ZeroWs.autoFilter = some ⟨2, 1, 0, 0⟩ ∧
    c5TitledWs.autoFilter = some ⟨2, 1, 3, 1⟩ ∧
    c5TitledWs.autoFilter ≠ some ⟨3, 1, 3, 1⟩ := by
  decide

/-- Claim C5 (amended): when `config.autoFilter` is true, placing a table
always sets the worksheet autofilter — also for a zero-column table — to
the range from `(startRow + 1, startCol)` (the header row itself when both a
title and a header are present) through the last written row, across
columns `startCol .. startCol + columns.length - 1`. -/
theorem c5_autofilter_range_amended (cfg : ExcelConfig) (ws : Worksheet)
    (t : InTable) (c r : Int) (hcfg : cfg.autoFilter = true)
    (hp : parseStartCell t.startCell = (c, some r)) (hr : 0 < r) (hc : 0 < c) :
    placeTable cfg ws t = .ok (placeTableAt cfg ws t r.toNat c.toNat) ∧
    (placeTableAt cfg ws t r.toNat c.toNat).autoFilter
      = some (tableAutoFilterRange t r.toNat c.toNat) :=
  ⟨placeTable_ok cfg ws t c r hp hr hc,
   placeTableAt_autoFilter cfg ws t r.toNat c.toNat hcfg⟩

/-- Claim C5 witness: the amended range theorem applied to the titled
one-column table anchored at `A1`. -/
theorem c5_autofilter_range_amended_witness :
    placeTable c5Cfg emptyWorksheet c5TitledTable
      = .ok (placeTableAt c5Cfg emptyWorksheet c5TitledTable 1 1) ∧
    (placeTableAt c5Cfg emptyWorksheet c5TitledTable 1 1).autoFilter
      = some (tableAutoFilterRange c5TitledTable 1 1) :=
  c5_autofilter_range_amended c5Cfg emptyWorksheet c5TitledTable 1 1
    rfl (by decide) (by decide) (by decide)

/-- Claim C6: for a static cell in a `number`-typed column with no explicit
format (the resolved per-column format is `none`, as `columnFormatOf`
confirms), the stored value is `Math.round(Number(v))` — half-up rounding —
when `Number(v)` is not NaN, the raw value otherwise, and the applied number
format is `"0"`. -/
theorem c6_number_cell_round_half_up (ws : Worksheet) (r sc ci : Nat)
    (types : List String) (fmts : List (Option String)) (v : JSVal)
    (h1 : types.get? ci = some "number") (h2 : fmts.get? ci = some none) :
    getCellRec (writeDataCell ws r sc ci types fmts ⟨some "static_value", v⟩)
        r (sc + ci)
      = some ⟨(match jsNumber (nullToEmpty v) with
               | some q => CellVal.num ⟨mathRound q, 0⟩
               | none => storeJS (nullToEmpty v)), some "0"⟩
    ∧ (∀ name : String, columnFormatOf ⟨name, "number", none⟩ = none) := by
  constructor
  · simp only [writeDataCell, h1, h2]
    rw [if_neg (show ¬((some "static_value").getD "static_value" = "formula") by decide)]
    rw [show (some (none : Option String)).join = none from rfl]
    simp only [jsOrStr]
    rw [getCellRec_setValue_setNumFmt]
  · intro name
    rfl

/-- Claim C6 witness: `"42.7"` stores the integer 43 with format `"0"`, and
the unparseable `"oops"` keeps its raw literal with format `"0"`. -/
theorem c6_number_cell_round_half_up_witness :
    getCellRec (writeDataCell emptyWorksheet 1 1 0 ["number"] [none]
        ⟨some "static_value", .vStr "42.7"⟩) 1 1
      = some ⟨.num ⟨43, 0⟩, some "0"⟩ ∧
    getCellRec (writeDataCell emptyWorksheet 1 1 0 ["number"] [none]
        ⟨some "static_value", .vStr "oops"⟩) 1 1
      = some ⟨.str "oops", some "0"⟩ := by
  constructor
  · have h := (c6_number_cell_round_half_up emptyWorksheet 1 1 0 ["number"]
      [none] (.vStr "42.7") rfl rfl).1
    exact h.trans (by decide)
  · have h := (c6_number_cell_round_half_up emptyWorksheet 1 1 0 ["number"]
      [none] (.vStr "oops") rfl rfl).1
    exact h.trans (by decide)

/-- Claim C7: on every string of uppercase letters, `columnLetterToNumber`
computes the conventional 1-based spreadsheet column index — the positional
base-26 value in which each letter contributes `letter - 'A' + 1`. -/
theorem c7_columnLetterToNumber_base26 (s : String)
    (hv : ∀ c ∈ s.data, 'A'.toNat ≤ c.toNat ∧ c.toNat ≤ 'Z'.toNat) :
    columnLetterToNumber s = (specColumnIndex s.data : Int) := by
  have h := colFold_eq s.data 0 hv
  simpa [columnLetterToNumber] using h

/-- Claim C7 witness: the base-26 theorem applied at `"AA"`, together with
the other anchor values of the claim. -/
theorem c7_columnLetterToNumber_base26_witness :
    columnLetterToNumber "AA" = 27 ∧ columnLetterToNumber "A" = 1 ∧
    columnLetterToNumber "Z" = 26 := by
  refine ⟨?_, by decide, by decide⟩
  rw [c7_columnLetterToNumber_base26 "AA" (by decide)]
  decide

/-- Claim C8: a directory entry whose stat succeeds is deleted by a sweep
cycle exactly when the elapsed time since its modification exceeds one hour
(3,600,000 ms); a file modified 61 minutes ago is deleted and a file
modified 59 minutes ago is retained. -/
theorem c8_sweep_deletes_iff_older_than_hour :
    ∀ (now mtime : Int) (name : String),
      oneHour = 3600000 ∧
      (sweepFile now (name, some mtime) = some name ↔ now - mtime > oneHour) ∧
      sweepFile now (name, some (now - 3660000)) = some name ∧
      sweepFile now (name, some (now - 3540000)) = none ∧
      sweepCycle now [(name, some mtime)]
        = if now - mtime > oneHour then [name] else [] := by
  intro now mtime name
  refine ⟨by decide, ?_, ?_, ?_, ?_⟩
  · simp only [sweepFile]
    split_ifs with h
    · simp [h]
    · simp [h]
  · simp only [sweepFile]
    rw [if_pos (by unfold oneHour; omega)]
  · simp only [sweepFile]
    rw [if_neg (by unfold oneHour; omega)]
  · simp only [sweepCycle, sweepFile]
    split_ifs with h <;> simp

/-- Claim C9: for a static cell in a `boolean`-typed column, the stored
value is the JavaScript truthiness of the input after null is replaced by
the empty string — so the non-empty strings `"false"` and `"0"` store
`true`, while null, the empty string and the number 0 store `false`. -/
theorem c9_boolean_cell_truthiness (ws : Worksheet) (r sc ci : Nat)
    (types : List String) (fmts : List (Option String)) (v : JSVal)
    (h1 : types.get? ci = some "boolean") :
    (getCellRec (writeDataCell ws r sc ci types fmts ⟨some "static_value", v⟩)
        r (sc + ci)).map WCell.value
      = some (.boolean (jsTruthy (nullToEmpty v)))
    ∧ jsTruthy (nullToEmpty (.vStr "false")) = true
    ∧ jsTruthy (nullToEmpty (.vStr "0")) = true
    ∧ jsTruthy (nullToEmpty .vNull) = false
    ∧ jsTruthy (nullToEmpty (.vStr "")) = false
    ∧ jsTruthy (nullToEmpty (.vNum ⟨0, 0⟩)) = false := by
  refine ⟨?_, by decide, by decide, by decide, by decide, by decide⟩
  simp only [writeDataCell, h1]
  rw [if_neg (show ¬((some "static_value").getD "static_value" = "formula") by decide)]
  rw [getCellRec_setValue]

/-- Claim C9 witness: the truthiness theorem applied to the string
`"false"`, which is stored as the boolean `true`. -/
theorem c9_boolean_cell_truthiness_witness :
    (getCellRec (writeDataCell emptyWorksheet 1 1 0 ["boolean"] []
        ⟨some "static_value", .vStr "false"⟩) 1 1).map WCell.value
      = some (.boolean true) := by
  have h := (c9_boolean_cell_truthiness emptyWorksheet 1 1 0 ["boolean"] []
    (.vStr "false") rfl).1
  exact h.trans (by decide)

/-- Claim C10: with `config.autoFilter` true, each table placement
overwrites the worksheet's single autofilter property, so after placing a
sheet's tables the worksheet carries exactly the range computed for the
last table, whatever was registered before. -/
theorem c10_last_table_autofilter_wins (cfg : ExcelConfig) :
    ∀ (ts : List InTable) (ws wsF : Worksheet) (t : InTable) (c r : Int),
      cfg.autoFilter = true →
      parseStartCell t.startCell = (c, some r) → 0 < r → 0 < c →
      placeTables cfg ws (ts ++ [t]) = .ok wsF →
      wsF.autoFilter = some (tableAutoFilterRange t r.toNat c.toNat) := by
  intro ts
  induction ts with
  | nil =>
    intro ws wsF t c r hcfg hp hr hc hok
    simp only [List.nil_append, placeTables] at hok
    cases hx : placeTable cfg ws t with
    | error e => rw [hx] at hok; simp at hok
    | ok ws2 =>
      rw [hx] at hok
      simp only [placeTables] at hok
      have hval := placeTable_ok cfg ws t c r hp hr hc
      rw [hx] at hval
      injection hval with h2
      cases hok
      rw [h2]
      exact placeTableAt_autoFilter cfg ws t r.toNat c.toNat hcfg
  | cons x ts ih =>
    intro ws wsF t c r hcfg hp hr hc hok
    simp only [List.cons_append, placeTables] at hok
    cases hx : placeTable cfg ws x with
    | error e => rw [hx] at hok; simp at hok
    | ok ws2 =>
      rw [hx] at hok
      exact ih ws2 wsF t c r hcfg hp hr hc hok

/-- Claim C10 witness: the overwrite theorem applied to the two-table
sheet; the surviving autofilter is the second table's range, which differs
from the first table's. -/
theorem c10_last_table_autofilter_wins_witness :
    placeTables c10Cfg emptyWorksheet [c10Table1, c10Table2] = .ok c10Ws ∧
    c10Ws.autoFilter = some (tableAutoFilterRange c10Table2 5 5) ∧
    tableAutoFilterRange c10Table2 5 5 ≠ tableAutoFilterRange c10Table1 1 1 := by
  have hok : placeTables c10Cfg emptyWorksheet [c10Table1, c10Table2]
      = .ok c10Ws := by decide
  refine ⟨hok, ?_, by decide⟩
  exact c10_last_table_autofilter_wins c10Cfg [c10Table1] emptyWorksheet c10Ws
    c10Table2 5 5 rfl (by decide) (by decide) (by decide) hok
